import Mathlib

/-!
Verification of the IP-intelligence lookup pipeline of the `iphey` repository.

The definitions below are a shallow embedding of
`src/services/ipService.worker.ts` (provider clients, background
revalidation, `lookupIpInsight`, `verifyRadarToken`) and of the worker
routes in the Hono entry point (`/api/health`, `/api/v1/ip/:ip`).
Effects are made explicit: network behaviour is an input (a
`FetchOutcome` describing what the one `fetch` of each client would do),
the cache is threaded state, and each operation's output records the
provider calls it performed, the background revalidations it scheduled
and the log lines it emitted.

Components imported by the service whose implementation files are not
part of the sources (the cache store, the request deduplicator, the
normalizers) are modelled from the spec; each such definition says so in
its doc comment.
-/

/-- Worker environment bindings used by `createWorkerIpService` and the
routes: each credential is an optional string (absent binding = `none`).
Mirrors the fields of `Env` consumed in `ipService.worker.ts`. -/
structure Env where
  IPINFO_TOKEN : Option String
  CLOUDFLARE_ACCOUNT_ID : Option String
  CLOUDFLARE_RADAR_TOKEN : Option String
  CACHE_BACKEND : Option String
deriving Repr, DecidableEq

/-- JavaScript truthiness of an optional string binding: `!env.X` is
true when the binding is absent or the empty string. -/
def tokenPresent : Option String → Bool
  | none => false
  | some s => s ≠ ""

/-- What the single `fetch` of a provider client would do, were it
performed: reject (network error / timeout abort), resolve with a
non-ok status, or resolve ok with a parsed payload of type `π`. -/
inductive FetchOutcome (π : Type) where
  | netFail
  | httpError (status : Nat)
  | ok (payload : π)
deriving Repr, DecidableEq

/-- What the Radar `fetch` would do: as `FetchOutcome`, but an ok
response carries the `{ success, result }` envelope of the Cloudflare
API. -/
inductive RadarOutcome (ρ : Type) where
  | netFail
  | httpError (status : Nat)
  | ok (success : Bool) (result : ρ)
deriving Repr, DecidableEq

/-- What the `tokens/verify` `fetch` of `verifyRadarToken` would do: an
ok response carries only the envelope's `success` flag. -/
inductive VerifyOutcome where
  | netFail
  | httpError (status : Nat)
  | ok (success : Bool)
deriving Repr, DecidableEq

/-- Errors thrown by a provider client call (`throw new Error(...)`),
distinguished by cause; `network` is a rejected `fetch` (timeout abort
or network failure). -/
inductive ProviderError where
  | httpStatus (status : Nat)
  | unsuccessful
  | network
deriving Repr, DecidableEq

/-- `ApiError` of `src/middleware/errorHandler.ts`: an `Error` carrying
an HTTP status. -/
structure ApiError where
  status : Nat
  message : String
deriving Repr, DecidableEq

/-- `fetchIpInfoWorker` (ipService.worker.ts lines 38–48): with no
`IPINFO_TOKEN` return `null` without fetching; otherwise fetch, throw on
a rejected fetch or a non-ok status, else return the parsed payload. -/
def fetchIpInfoWorker (env : Env) (net : FetchOutcome α) :
    Except ProviderError (Option α) :=
  if !tokenPresent env.IPINFO_TOKEN then
    .ok none
  else
    match net with
    | .netFail => .error .network
    | .httpError status => .error (.httpStatus status)
    | .ok payload => .ok (some payload)

/-- `fetchRadarWorker` (ipService.worker.ts lines 50–69): with either
Radar credential missing return `null` without fetching; otherwise
fetch, throw on a rejected fetch or a non-ok status, throw
`Radar lookup unsuccessful` when the envelope has `success = false`,
else return the envelope's `result`. -/
def fetchRadarWorker (env : Env) (net : RadarOutcome ρ) :
    Except ProviderError (Option ρ) :=
  if !tokenPresent env.CLOUDFLARE_ACCOUNT_ID ||
      !tokenPresent env.CLOUDFLARE_RADAR_TOKEN then
    .ok none
  else
    match net with
    | .netFail => .error .network
    | .httpError status => .error (.httpStatus status)
    | .ok success result =>
      if !success then .error .unsuccessful else .ok (some result)

/-- `verifyRadarToken` (ipService.worker.ts lines 154–175): `false`
with missing credentials; otherwise the whole fetch-and-parse is inside
`try`/`catch`, so a rejected fetch yields `false`, a non-ok status
yields `false`, and an ok response yields the envelope's `success`
flag. Total by construction: the model has no error channel, matching
the source's catch-all. -/
def verifyRadarToken (env : Env) (net : VerifyOutcome) : Bool :=
  if !tokenPresent env.CLOUDFLARE_ACCOUNT_ID ||
      !tokenPresent env.CLOUDFLARE_RADAR_TOKEN then
    false
  else
    match net with
    | .netFail => false
    | .httpError _ => false
    | .ok success => success

/-- Modelled from the spec: `NormalizedIpInsight` (§3 data model); its
defining file `src/types/ip.ts` is not among the sources. Canonical
provider-agnostic shape: an `ip` string plus optional location and
organisation fields. -/
structure NormalizedIpInsight where
  ip : String
  country : Option String
  region : Option String
  city : Option String
  timezone : Option String
  org : Option String
  loc : Option String
deriving Repr, DecidableEq

/-- A cache entry: the stored value and the time it was stored
(spec §3: `data`, `storedAt`). -/
structure CacheEntry (T : Type) where
  data : T
  storedAt : Nat
deriving Repr, DecidableEq

/-- Modelled from the spec: the cache store built by
`createCache` (§4.1); its file `src/utils/cacheFactory.worker.ts` is
not among the sources. Key/value store with `ttlMs`/`staleTtlMs` fixed
at construction; entries kept in an association list. -/
structure CacheStore (T : Type) where
  ttlMs : Nat
  staleTtlMs : Nat
  entries : List (String × CacheEntry T)
deriving Repr, DecidableEq

/-- Modelled from the spec: `getWithStale(key) -> {entry, isStale}`
(§4.1, §3): fresh when `now - storedAt ≤ ttlMs`, stale when
`ttlMs < now - storedAt ≤ staleTtlMs`, a miss beyond `staleTtlMs`. -/
def CacheStore.getWithStale (c : CacheStore T) (key : String) (now : Nat) :
    Option (CacheEntry T) × Bool :=
  match c.entries.lookup key with
  | none => (none, false)
  | some e =>
    if now - e.storedAt ≤ c.ttlMs then (some e, false)
    else if now - e.storedAt ≤ c.staleTtlMs then (some e, true)
    else (none, false)

/-- Modelled from the spec: `set(key, value)` (§4.1, §3): whole-entry
replacement stamped with the current time. -/
def CacheStore.set (c : CacheStore T) (key : String) (v : T) (now : Nat) :
    CacheStore T :=
  { c with entries := (key, ⟨v, now⟩) :: c.entries.filter (fun kv => kv.1 ≠ key) }

/-- One world for one service operation: the environment, the cache
state, the clock, what each provider's `fetch` would return for
`w.ip`, and the (imported, source-absent) normalizers
`normalizeIpInfo` / `normalizeRadar`, kept abstract as functions into
the insight type `ι`. -/
structure World (α ρ ι : Type) where
  env : Env
  cache : CacheStore ι
  ip : String
  now : Nat
  ipinfoNet : FetchOutcome α
  radarNet : RadarOutcome ρ
  normIpInfo : α → ι
  normRadar : ρ → ι

/-- A provider call performed during an operation, in order. -/
inductive CallEvent where
  | primary
  | secondary
deriving Repr, DecidableEq

/-- The network calls fetching ipinfo performs: one, unless the token
check short-circuits before `fetch`. -/
def primaryCallList (env : Env) : List CallEvent :=
  if tokenPresent env.IPINFO_TOKEN then [.primary] else []

/-- The network calls fetching Radar performs: one, unless the
credential check short-circuits before `fetch`. -/
def secondaryCallList (env : Env) : List CallEvent :=
  if tokenPresent env.CLOUDFLARE_ACCOUNT_ID &&
      tokenPresent env.CLOUDFLARE_RADAR_TOKEN then [.secondary] else []

/-- The guarded primary attempt shared by `lookupIpInsight`'s factory
(lines 125–132) and `revalidateIpInsight` (lines 75–82): call
`fetchIpInfoWorker` inside `try`/`catch`; a thrown error is logged and
leaves `insight` null, a `null` return leaves it null, a payload is
normalized. -/
def primaryAttempt (w : World α ρ ι) : Option ι :=
  match fetchIpInfoWorker w.env w.ipinfoNet with
  | .ok (some payload) => some (w.normIpInfo payload)
  | .ok none => none
  | .error _ => none

/-- The guarded secondary attempt shared by `lookupIpInsight`'s factory
(lines 134–143) and `revalidateIpInsight` (lines 84–93), entered only
when the primary produced no insight. -/
def secondaryAttempt (w : World α ρ ι) : Option ι :=
  match fetchRadarWorker w.env w.radarNet with
  | .ok (some result) => some (w.normRadar result)
  | .ok none => none
  | .error _ => none

/-- Output of one service operation: the settled result, the cache as
left by the operation's own (foreground) writes, the provider calls it
performed in order, and how many background revalidations it
scheduled. -/
structure ServiceOut (ι : Type) where
  result : Except ApiError ι
  cache : CacheStore ι
  calls : List CallEvent
  revalsScheduled : Nat
deriving Repr

/-- The deduplicated factory of `lookupIpInsight` (the async closure,
ipService.worker.ts lines 117–151): re-read the cache
(`getWithStale`, staleness ignored) and return the entry's data if
present; otherwise attempt primary then, if it produced no insight,
secondary; with no insight throw `ApiError(502, 'Unable to fetch IP
intelligence')`; otherwise `set` the insight and return it. The
factory never calls `revalidateIpInsight`. -/
def lookupFactory (w : World α ρ ι) : ServiceOut ι :=
  match (w.cache.getWithStale w.ip w.now).1 with
  | some cachedAfterLock => ⟨.ok cachedAfterLock.data, w.cache, [], 0⟩
  | none =>
    match primaryAttempt w with
    | some insight =>
      ⟨.ok insight, w.cache.set w.ip insight w.now, primaryCallList w.env, 0⟩
    | none =>
      match secondaryAttempt w with
      | some insight =>
        ⟨.ok insight, w.cache.set w.ip insight w.now,
          primaryCallList w.env ++ secondaryCallList w.env, 0⟩
      | none =>
        ⟨.error ⟨502, "Unable to fetch IP intelligence"⟩, w.cache,
          primaryCallList w.env ++ secondaryCallList w.env, 0⟩

/-- `lookupIpInsight` (ipService.worker.ts lines 104–152) as one
sequential call with no concurrent holder of the dedup key (so
`requestDeduplicator.deduplicate` runs the factory directly; the
concurrent behaviour of the deduplicator is modelled separately
below). On a `getWithStale` hit the entry's data is returned — with one
background revalidation scheduled first when the hit is stale; on a
miss the deduplicated factory runs. -/
def lookupIpInsight (w : World α ρ ι) : ServiceOut ι :=
  match w.cache.getWithStale w.ip w.now with
  | (some cached, isStale) =>
    if isStale then ⟨.ok cached.data, w.cache, [], 1⟩
    else ⟨.ok cached.data, w.cache, [], 0⟩
  | (none, _) => lookupFactory w

/-- Output of `revalidateIpInsight`: the cache as left by the run and
the `logger.warn` lines emitted. There is no error channel: the
function body is wrapped in `try`/`catch` and each provider attempt in
its own inner `try`/`catch`, so the promise never rejects. -/
structure RevalOut (ι : Type) where
  cache : CacheStore ι
  warnLogs : List String
deriving Repr

/-- The `logger.warn` lines of a guarded provider attempt. -/
def attemptWarnLogs (msg : String) : Except ProviderError (Option π) → List String
  | .error _ => [msg]
  | .ok _ => []

/-- `revalidateIpInsight` (ipService.worker.ts lines 71–102): attempt
primary (failure caught and logged as `ipinfo revalidation failed`),
then secondary if no insight yet (failure caught and logged as
`Cloudflare Radar revalidation failed`); `set` the cache only when an
insight was produced, otherwise leave it untouched. -/
def revalidateIpInsight (w : World α ρ ι) : RevalOut ι :=
  let primaryLogs := attemptWarnLogs "ipinfo revalidation failed"
    (fetchIpInfoWorker w.env w.ipinfoNet)
  match primaryAttempt w with
  | some insight => ⟨w.cache.set w.ip insight w.now, primaryLogs⟩
  | none =>
    let secondaryLogs := attemptWarnLogs "Cloudflare Radar revalidation failed"
      (fetchRadarWorker w.env w.radarNet)
    match secondaryAttempt w with
    | some insight => ⟨w.cache.set w.ip insight w.now, primaryLogs ++ secondaryLogs⟩
    | none => ⟨w.cache, primaryLogs ++ secondaryLogs⟩

/-- Modelled from the spec: the request deduplicator (§4.2, §3 "Dedup
Ticket"); its file `src/utils/requestDeduplication.ts` is not among
the sources. State of one deduplicator instance: the pending tickets
(key ↦ ticket id of the in-flight resolution), a fresh-ticket counter,
the factory invocations so far (key, ticket) in order, and the ticket
each caller was attached to, in arrival order. -/
structure DedupState where
  pending : List (String × Nat)
  nextTicket : Nat
  invocations : List (String × Nat)
  assignments : List (String × Nat)
deriving Repr, DecidableEq

/-- The deduplicator with nothing in flight. -/
def DedupState.empty : DedupState := ⟨[], 0, [], []⟩

/-- Modelled from the spec: one caller entering
`deduplicate(key, factory)` (§4.2): if a ticket is pending for `key`
the caller attaches to it (no factory invocation); otherwise the
factory is invoked, a fresh ticket is registered under `key`, and the
caller attaches to it. -/
def dedupCall (s : DedupState) (key : String) : DedupState :=
  match s.pending.lookup key with
  | some ticket => { s with assignments := s.assignments ++ [(key, ticket)] }
  | none =>
    { pending := (key, s.nextTicket) :: s.pending
      nextTicket := s.nextTicket + 1
      invocations := s.invocations ++ [(key, s.nextTicket)]
      assignments := s.assignments ++ [(key, s.nextTicket)] }

/-- Modelled from the spec: settlement of `key`'s pending resolution
(§4.2): the key is removed from the pending set immediately, success
or failure alike. -/
def dedupSettle (s : DedupState) (key : String) : DedupState :=
  { s with pending := s.pending.filter (fun kv => kv.1 ≠ key) }

/-- `n` callers for the same key arriving before any settlement. -/
def dedupCalls (s : DedupState) (key : String) : Nat → DedupState
  | 0 => s
  | n + 1 => dedupCalls (dedupCall s key) key n

/-- The dedup key `lookupIpInsight` uses: `"ip:" + address`. -/
def dedupKey (ip : String) : String := "ip:" ++ ip

/-- A JSON value, as produced by the worker's `c.json` responses;
objects keep their fields in source order. -/
inductive JsonVal where
  | str (s : String)
  | num (n : Int)
  | boolean (b : Bool)
  | obj (fields : List (String × JsonVal))

/-- Whether a JSON object has a field of the given name. -/
def JsonVal.hasKey : JsonVal → String → Bool
  | .obj fields, key => fields.any (fun f => f.1 = key)
  | _, _ => false

/-- The field of a JSON object of the given name, when present. -/
def JsonVal.getKey : JsonVal → String → Option JsonVal
  | .obj fields, key => (fields.lookup key)
  | _, _ => none

/-- The `cache` sub-object of the `/api/health` response:
`{backend, enabled}` with `backend` defaulting to `kv` under `??`. -/
def healthCacheBody (env : Env) : JsonVal :=
  .obj
    [("backend", .str (env.CACHE_BACKEND.getD "kv")),
     ("enabled", .boolean true)]

/-- The `/api/health` response body of `createWorkerApp`
(worker entry point lines 52–68): `status`, `version`, `environment`,
`uptime`, the `cache` object, `radarHealthy`, `timestamp`. -/
def healthBody (env : Env) (radarHealthy : Bool) (now : Nat) : JsonVal :=
  .obj
    [("status", .str "ok"),
     ("version", .str "1.0.0"),
     ("environment", .str "cloudflare-workers"),
     ("uptime", .num now),
     ("cache", healthCacheBody env),
     ("radarHealthy", .boolean radarHealthy),
     ("timestamp", .num now)]

/-- The `/api/health` handler: await `verifyRadarToken`, respond with
`healthBody`. -/
def healthHandler (env : Env) (verifyNet : VerifyOutcome) (now : Nat) : JsonVal :=
  healthBody env (verifyRadarToken env verifyNet) now

/-- Split a character list at every dot. -/
def splitDots : List Char → List (List Char)
  | [] => [[]]
  | c :: cs =>
    let rest := splitDots cs
    if c = '.' then [] :: rest
    else
      match rest with
      | [] => [[c]]
      | g :: gs => (c :: g) :: gs

/-- Whether a path-parameter string matches the route guard's regex
`^(\d{1,3}\.){3}\d{1,3}$`: four runs of one to three digits separated
by dots (the `!ip` falsy check is subsumed: the empty string does not
match). -/
def isValidIpParam (s : String) : Bool :=
  let parts := splitDots s.data
  parts.length = 4 &&
    parts.all (fun p => 1 ≤ p.length && p.length ≤ 3 && p.all Char.isDigit)

/-- Body of a `/api/v1/ip/:ip` response: the insight serialized as
JSON, or an error object `{error}` / `{error, message}`. -/
inductive RouteBody (ι : Type) where
  | insight (i : ι)
  | err (error : String) (message : Option String)
deriving Repr, DecidableEq

/-- A route response plus how many times the handler invoked
`lookupIpInsight`. -/
structure RouteOut (ι : Type) where
  status : Nat
  body : RouteBody ι
  lookupCalls : Nat
deriving Repr, DecidableEq

/-- The `GET /api/v1/ip/:ip` handler of `createWorkerApp` (worker
entry point lines 257–279): reject a parameter that fails the IP
regex with `400 {error: 'Invalid IP address'}` before any service
call; otherwise await `lookupIpInsight` and respond with the insight
as JSON — except that the handler's `catch` turns every thrown error,
`ApiError` included, into `500 {error: 'Internal Server Error',
message}`. -/
def handleIpGet (w : World α ρ ι) : RouteOut ι :=
  if !isValidIpParam w.ip then
    ⟨400, .err "Invalid IP address" none, 0⟩
  else
    match (lookupIpInsight w).result with
    | .ok insight => ⟨200, .insight insight, 1⟩
    | .error e => ⟨500, .err "Internal Server Error" (some e.message), 1⟩

/-! Concrete fixtures used by the witness theorems. -/

/-- A sample normalized insight. -/
def sampleInsight : NormalizedIpInsight :=
  ⟨"8.8.8.8", some "US", none, none, none, some "Google LLC", none⟩

/-- A concrete world over `Nat` provider payloads, with injective
normalizers so distinct payloads give distinct insights. -/
def mkWorld (env : Env) (cache : CacheStore NormalizedIpInsight) (ip : String)
    (now : Nat) (inet : FetchOutcome Nat) (rnet : RadarOutcome Nat) :
    World Nat Nat NormalizedIpInsight :=
  ⟨env, cache, ip, now, inet, rnet,
    fun n => { sampleInsight with org := some (toString n) },
    fun n => { sampleInsight with city := some (toString n) }⟩

/-- Environment with no binding set. -/
def envNone : Env := ⟨none, none, none, none⟩

/-- Environment with every credential set. -/
def envFull : Env := ⟨some "it", some "acct", some "rt", some "memory"⟩

/-- A cache holding one entry for `8.8.8.8` stored at time 0, with
`ttlMs = 100` and `staleTtlMs = 1000`. -/
def cacheWithEntry : CacheStore NormalizedIpInsight :=
  ⟨100, 1000, [("8.8.8.8", ⟨sampleInsight, 0⟩)]⟩

/-- An empty cache with `ttlMs = 100` and `staleTtlMs = 1000`. -/
def cacheEmpty : CacheStore NormalizedIpInsight := ⟨100, 1000, []⟩

/-! Worlds used by later witnesses. -/

/-- Stale inner-hit world for the C7 witness (entry age 500 with
`ttlMs = 100`, `staleTtlMs = 1000`). -/
def worldInnerHit : World Nat Nat NormalizedIpInsight :=
  mkWorld envNone cacheWithEntry "8.8.8.8" 500 .netFail .netFail

/-- Fresh-hit world: providers configured and reachable, entry age 50. -/
def worldFreshHit : World Nat Nat NormalizedIpInsight :=
  mkWorld envFull cacheWithEntry "8.8.8.8" 50 (.ok 1) (.ok true 2)

/-- Stale-hit world: providers configured and reachable, entry age 600. -/
def worldStaleHit : World Nat Nat NormalizedIpInsight :=
  mkWorld envFull cacheWithEntry "8.8.8.8" 600 (.ok 1) (.ok true 2)

/-- Both providers configured but rejecting, empty cache. -/
def worldBothReject : World Nat Nat NormalizedIpInsight :=
  mkWorld envFull cacheEmpty "8.8.8.8" 0 (.httpError 500) (.httpError 502)

/-- Both providers rejecting, stale cache entry present. -/
def worldRejectStaleHit : World Nat Nat NormalizedIpInsight :=
  mkWorld envFull cacheWithEntry "8.8.8.8" 600 (.httpError 500) (.httpError 502)

/-- Unconfigured world: no credentials, empty cache. -/
def worldUnconfigured : World Nat Nat NormalizedIpInsight :=
  mkWorld envNone cacheEmpty "8.8.8.8" 0 .netFail .netFail

/-- Fallback world: primary rejects with a 500, Radar succeeds. -/
def worldFallback : World Nat Nat NormalizedIpInsight :=
  mkWorld envFull cacheEmpty "8.8.8.8" 7 (.httpError 500) (.ok true 9)

/-- Herd world: primary configured and succeeding with payload 5. -/
def worldHerd : World Nat Nat NormalizedIpInsight :=
  mkWorld envFull cacheEmpty "8.8.8.8" 0 (.ok 5) (.ok true 9)

/-- Invalid-parameter world for the route guard. -/
def worldBadIp : World Nat Nat NormalizedIpInsight :=
  mkWorld envFull cacheEmpty "not-an-ip" 0 (.ok 5) (.ok true 9)

/-! Claim theorems. -/

/-- C6: for every provider fetch (primary ipinfo and secondary Radar),
absent credentials yield `null` without error; a non-success HTTP
status, or a Radar envelope with `success = false`, is a thrown error,
distinct from the configuration-absent case; otherwise the provider
payload is returned. -/
theorem provider_fetch_classification {α ρ : Type} (env : Env)
    (netI : FetchOutcome α) (netR : RadarOutcome ρ) :
    (tokenPresent env.IPINFO_TOKEN = false →
      fetchIpInfoWorker env netI = .ok none) ∧
    (∀ s, tokenPresent env.IPINFO_TOKEN = true → netI = .httpError s →
      fetchIpInfoWorker env netI = .error (.httpStatus s)) ∧
    (∀ p, tokenPresent env.IPINFO_TOKEN = true → netI = .ok p →
      fetchIpInfoWorker env netI = .ok (some p)) ∧
    ((tokenPresent env.CLOUDFLARE_ACCOUNT_ID = false ∨
      tokenPresent env.CLOUDFLARE_RADAR_TOKEN = false) →
      fetchRadarWorker env netR = .ok none) ∧
    (∀ s, tokenPresent env.CLOUDFLARE_ACCOUNT_ID = true →
      tokenPresent env.CLOUDFLARE_RADAR_TOKEN = true → netR = .httpError s →
      fetchRadarWorker env netR = .error (.httpStatus s)) ∧
    (∀ r, tokenPresent env.CLOUDFLARE_ACCOUNT_ID = true →
      tokenPresent env.CLOUDFLARE_RADAR_TOKEN = true → netR = .ok false r →
      fetchRadarWorker env netR = .error .unsuccessful) ∧
    (∀ r, tokenPresent env.CLOUDFLARE_ACCOUNT_ID = true →
      tokenPresent env.CLOUDFLARE_RADAR_TOKEN = true → netR = .ok true r →
      fetchRadarWorker env netR = .ok (some r)) := by
  refine ⟨?_, ?_, ?_, ?_, ?_, ?_, ?_⟩
  · intro h; simp [fetchIpInfoWorker, h]
  · intro s h hn; simp [fetchIpInfoWorker, h, hn]
  · intro p h hn; simp [fetchIpInfoWorker, h, hn]
  · intro h
    rcases h with h | h <;> simp [fetchRadarWorker, h]
  · intro s h1 h2 hn; simp [fetchRadarWorker, h1, h2, hn]
  · intro r h1 h2 hn; simp [fetchRadarWorker, h1, h2, hn]
  · intro r h1 h2 hn; simp [fetchRadarWorker, h1, h2, hn]

/-- Witness for C6: concrete instances of the classification. -/
theorem provider_fetch_classification_witness :
    fetchIpInfoWorker (α := Nat) envNone (.ok 7) = .ok none ∧
    fetchIpInfoWorker (α := Nat) envFull (.httpError 503) =
      .error (.httpStatus 503) ∧
    fetchIpInfoWorker (α := Nat) envFull (.ok 7) = .ok (some 7) ∧
    fetchRadarWorker (ρ := Nat) envNone (.ok true 9) = .ok none ∧
    fetchRadarWorker (ρ := Nat) envFull (.ok false 9) = .error .unsuccessful ∧
    fetchRadarWorker (ρ := Nat) envFull (.ok true 9) = .ok (some 9) :=
  ⟨(provider_fetch_classification envNone (.ok 7) (.ok true 9)).1 (by decide),
   (provider_fetch_classification envFull (.httpError 503) (.ok true 9)).2.1 503
     (by decide) rfl,
   (provider_fetch_classification envFull (.ok 7) (.ok true 9)).2.2.1 7
     (by decide) rfl,
   (provider_fetch_classification (α := Nat) envNone (.ok 7)
     (.ok true 9)).2.2.2.1 (Or.inl (by decide)),
   (provider_fetch_classification (α := Nat) envFull (.ok 7)
     (.ok false 9)).2.2.2.2.2.1 9 (by decide) (by decide) rfl,
   (provider_fetch_classification (α := Nat) envFull (.ok 7)
     (.ok true 9)).2.2.2.2.2.2 9 (by decide) (by decide) rfl⟩

/-- C8: `verifyRadarToken` never throws (it is total with no error
channel); it is `false` on missing credentials, a failed request, or a
non-success status, and `true` exactly when the credentials are
present and the ok response's `success` flag is true. -/
theorem verifyRadarToken_classification (env : Env) (net : VerifyOutcome) :
    ((tokenPresent env.CLOUDFLARE_ACCOUNT_ID = false ∨
      tokenPresent env.CLOUDFLARE_RADAR_TOKEN = false) →
      verifyRadarToken env net = false) ∧
    (net = .netFail → verifyRadarToken env net = false) ∧
    (∀ s, net = .httpError s → verifyRadarToken env net = false) ∧
    (verifyRadarToken env net = true ↔
      tokenPresent env.CLOUDFLARE_ACCOUNT_ID = true ∧
      tokenPresent env.CLOUDFLARE_RADAR_TOKEN = true ∧ net = .ok true) := by
  refine ⟨?_, ?_, ?_, ?_⟩
  · intro h
    rcases h with h | h <;> simp [verifyRadarToken, h]
  · intro hn
    cases ha : tokenPresent env.CLOUDFLARE_ACCOUNT_ID <;>
      cases hr : tokenPresent env.CLOUDFLARE_RADAR_TOKEN <;>
        simp [verifyRadarToken, ha, hr, hn]
  · intro s hn
    cases ha : tokenPresent env.CLOUDFLARE_ACCOUNT_ID <;>
      cases hr : tokenPresent env.CLOUDFLARE_RADAR_TOKEN <;>
        simp [verifyRadarToken, ha, hr, hn]
  · cases ha : tokenPresent env.CLOUDFLARE_ACCOUNT_ID <;>
      cases hr : tokenPresent env.CLOUDFLARE_RADAR_TOKEN <;>
        cases net <;> simp [verifyRadarToken, ha, hr]

/-- Witness for C8: concrete instances of both directions. -/
theorem verifyRadarToken_classification_witness :
    verifyRadarToken envNone (.ok true) = false ∧
    verifyRadarToken envFull .netFail = false ∧
    verifyRadarToken envFull (.httpError 401) = false ∧
    verifyRadarToken envFull (.ok true) = true :=
  ⟨(verifyRadarToken_classification envNone (.ok true)).1 (Or.inl (by decide)),
   (verifyRadarToken_classification envFull .netFail).2.1 rfl,
   (verifyRadarToken_classification envFull (.httpError 401)).2.2.1 401 rfl,
   (verifyRadarToken_classification envFull (.ok true)).2.2.2.2
     ⟨by decide, by decide, rfl⟩⟩

/-- C7: the deduplicated factory re-reads the cache before any provider
call; a present entry is returned as-is — staleness ignored, no
provider call, no background revalidation, cache untouched. -/
theorem lookupFactory_inner_cache_hit {α ρ ι : Type} (w : World α ρ ι)
    (e : CacheEntry ι)
    (hhit : (w.cache.getWithStale w.ip w.now).1 = some e) :
    lookupFactory w = ⟨.ok e.data, w.cache, [], 0⟩ := by
  simp [lookupFactory, hhit]

/-- Witness for C7: a stale entry (the `isStale` flag is true) is still
returned by the factory, with no provider call and no revalidation. -/
theorem lookupFactory_inner_cache_hit_witness :
    (worldInnerHit.cache.getWithStale worldInnerHit.ip worldInnerHit.now).2
      = true ∧
    lookupFactory worldInnerHit = ⟨.ok sampleInsight, worldInnerHit.cache, [], 0⟩ :=
  ⟨rfl, lookupFactory_inner_cache_hit worldInnerHit ⟨sampleInsight, 0⟩ rfl⟩

/-- C3: when `getWithStale` returns an entry, `lookupIpInsight` serves
its data with no foreground provider call and no cache write; a fresh
hit schedules nothing, a stale hit schedules exactly one background
revalidation. -/
theorem lookup_cache_hit_no_network {α ρ ι : Type} (w : World α ρ ι)
    (e : CacheEntry ι) (st : Bool)
    (hhit : w.cache.getWithStale w.ip w.now = (some e, st)) :
    lookupIpInsight w = ⟨.ok e.data, w.cache, [], if st then 1 else 0⟩ := by
  unfold lookupIpInsight
  rw [hhit]
  cases st <;> rfl

/-- Witness for C3: a fresh hit and a stale hit, both with providers
configured and reachable, and still no provider call. -/
theorem lookup_cache_hit_no_network_witness :
    lookupIpInsight worldFreshHit = ⟨.ok sampleInsight, worldFreshHit.cache, [], 0⟩ ∧
    lookupIpInsight worldStaleHit = ⟨.ok sampleInsight, worldStaleHit.cache, [], 1⟩ :=
  ⟨lookup_cache_hit_no_network worldFreshHit ⟨sampleInsight, 0⟩ false rfl,
   lookup_cache_hit_no_network worldStaleHit ⟨sampleInsight, 0⟩ true rfl⟩

/-- C5: a background revalidation swallows every failure — each
provider failure is logged, the run itself settles without error (the
model's output has no error channel), the cache is written only when
an insight was produced, and a foreground caller served from cache
gets the cached data whatever the revalidation's providers do. -/
theorem revalidate_swallows_and_preserves {α ρ ι : Type} (w : World α ρ ι) :
    (primaryAttempt w = none → secondaryAttempt w = none →
      (revalidateIpInsight w).cache = w.cache) ∧
    (∀ perr, fetchIpInfoWorker w.env w.ipinfoNet = .error perr →
      "ipinfo revalidation failed" ∈ (revalidateIpInsight w).warnLogs) ∧
    (∀ rerr, primaryAttempt w = none →
      fetchRadarWorker w.env w.radarNet = .error rerr →
      "Cloudflare Radar revalidation failed" ∈ (revalidateIpInsight w).warnLogs) ∧
    (∀ i, primaryAttempt w = some i →
      (revalidateIpInsight w).cache = w.cache.set w.ip i w.now) ∧
    (∀ i, primaryAttempt w = none → secondaryAttempt w = some i →
      (revalidateIpInsight w).cache = w.cache.set w.ip i w.now) ∧
    (∀ e st, w.cache.getWithStale w.ip w.now = (some e, st) →
      (lookupIpInsight w).result = .ok e.data) := by
  refine ⟨?_, ?_, ?_, ?_, ?_, ?_⟩
  · intro hp hs
    simp [revalidateIpInsight, hp, hs]
  · intro perr h
    have hp : primaryAttempt w = none := by simp [primaryAttempt, h]
    cases hq : secondaryAttempt w <;>
      simp [revalidateIpInsight, hp, hq, h, attemptWarnLogs]
  · intro rerr hp h
    have hq : secondaryAttempt w = none := by simp [secondaryAttempt, h]
    cases hf : fetchIpInfoWorker w.env w.ipinfoNet <;>
      simp [revalidateIpInsight, hp, hq, h, hf, attemptWarnLogs]
  · intro i hp
    simp [revalidateIpInsight, hp]
  · intro i hp hs
    simp [revalidateIpInsight, hp, hs]
  · intro e st hhit
    unfold lookupIpInsight
    rw [hhit]
    cases st <;> rfl

/-- Witness for C5: both providers rejecting — cache untouched, both
failures logged; and with a stale entry present the foreground lookup
still serves the cached data. -/
theorem revalidate_swallows_and_preserves_witness :
    (revalidateIpInsight worldBothReject).cache = worldBothReject.cache ∧
    "ipinfo revalidation failed" ∈ (revalidateIpInsight worldBothReject).warnLogs ∧
    "Cloudflare Radar revalidation failed" ∈
      (revalidateIpInsight worldBothReject).warnLogs ∧
    (lookupIpInsight worldRejectStaleHit).result = .ok sampleInsight :=
  ⟨(revalidate_swallows_and_preserves worldBothReject).1 rfl rfl,
   (revalidate_swallows_and_preserves worldBothReject).2.1 (.httpStatus 500) rfl,
   (revalidate_swallows_and_preserves worldBothReject).2.2.1 (.httpStatus 502)
     rfl rfl,
   (revalidate_swallows_and_preserves worldRejectStaleHit).2.2.2.2.2
     ⟨sampleInsight, 0⟩ true rfl⟩

/-- On a cache miss `lookupIpInsight` is exactly its deduplicated
factory (helper shared by the miss-path claims). -/
theorem lookup_miss_eq_factory {α ρ ι : Type} (w : World α ρ ι)
    (hmiss : (w.cache.getWithStale w.ip w.now).1 = none) :
    lookupIpInsight w = lookupFactory w := by
  unfold lookupIpInsight
  cases hE : w.cache.getWithStale w.ip w.now with
  | mk o st =>
    rw [hE] at hmiss
    simp only at hmiss
    subst hmiss
    rfl

/-- C1: when both providers fail or are unconfigured (neither attempt
yields an insight) on a cache miss, the lookup fails with
`ApiError(502, 'Unable to fetch IP intelligence')` and performs no
cache write. -/
theorem lookup_total_failure_502 {α ρ ι : Type} (w : World α ρ ι)
    (hmiss : (w.cache.getWithStale w.ip w.now).1 = none)
    (hp : primaryAttempt w = none) (hs : secondaryAttempt w = none) :
    (lookupIpInsight w).result =
      .error ⟨502, "Unable to fetch IP intelligence"⟩ ∧
    (lookupIpInsight w).cache = w.cache := by
  rw [lookup_miss_eq_factory w hmiss]
  simp [lookupFactory, hmiss, hp, hs]

/-- Witness for C1: no credentials configured, empty cache. -/
theorem lookup_total_failure_502_witness :
    (lookupIpInsight worldUnconfigured).result =
      .error ⟨502, "Unable to fetch IP intelligence"⟩ ∧
    (lookupIpInsight worldUnconfigured).cache = worldUnconfigured.cache :=
  lookup_total_failure_502 worldUnconfigured rfl rfl rfl

/-- C2: on a cache miss the primary provider comes first — if it
produced an insight the call list holds no secondary call at all; and
when the primary throws while Radar answers successfully, the lookup
returns `normalizeRadar` of the Radar payload, writes it to the cache,
and performed exactly one primary and then one secondary call. -/
theorem lookup_fallback_order {α ρ ι : Type} (w : World α ρ ι)
    (hmiss : (w.cache.getWithStale w.ip w.now).1 = none) :
    (∀ i, primaryAttempt w = some i →
      lookupIpInsight w =
        ⟨.ok i, w.cache.set w.ip i w.now, primaryCallList w.env, 0⟩) ∧
    CallEvent.secondary ∉ primaryCallList w.env ∧
    (∀ perr r, fetchIpInfoWorker w.env w.ipinfoNet = .error perr →
      fetchRadarWorker w.env w.radarNet = .ok (some r) →
      lookupIpInsight w =
        ⟨.ok (w.normRadar r), w.cache.set w.ip (w.normRadar r) w.now,
          [.primary, .secondary], 0⟩) := by
  refine ⟨?_, ?_, ?_⟩
  · intro i hp
    rw [lookup_miss_eq_factory w hmiss]
    simp [lookupFactory, hmiss, hp]
  · unfold primaryCallList
    cases tokenPresent w.env.IPINFO_TOKEN <;> simp
  · intro perr r hperr hradar
    have ht : tokenPresent w.env.IPINFO_TOKEN = true := by
      cases h : tokenPresent w.env.IPINFO_TOKEN
      · simp [fetchIpInfoWorker, h] at hperr
      · rfl
    have hacct : tokenPresent w.env.CLOUDFLARE_ACCOUNT_ID = true := by
      cases h : tokenPresent w.env.CLOUDFLARE_ACCOUNT_ID
      · simp [fetchRadarWorker, h] at hradar
      · rfl
    have hrt : tokenPresent w.env.CLOUDFLARE_RADAR_TOKEN = true := by
      cases h : tokenPresent w.env.CLOUDFLARE_RADAR_TOKEN
      · simp [fetchRadarWorker, h] at hradar
      · rfl
    have hp : primaryAttempt w = none := by simp [primaryAttempt, hperr]
    have hs : secondaryAttempt w = some (w.normRadar r) := by
      simp [secondaryAttempt, hradar]
    rw [lookup_miss_eq_factory w hmiss]
    simp [lookupFactory, hmiss, hp, hs, primaryCallList, secondaryCallList,
      ht, hacct, hrt]

/-- Witness for C2: primary rejects with 500, Radar succeeds with
payload 9; the normalized Radar payload is returned and cached after
one primary and one secondary call. -/
theorem lookup_fallback_order_witness :
    lookupIpInsight worldFallback =
      ⟨.ok (worldFallback.normRadar 9),
        worldFallback.cache.set worldFallback.ip (worldFallback.normRadar 9)
          worldFallback.now,
        [.primary, .secondary], 0⟩ :=
  (lookup_fallback_order worldFallback rfl).2.2 (.httpStatus 500) 9 rfl rfl

/-- While a ticket is pending for `key`, every further caller merely
attaches to it: no new invocation, no new ticket. -/
theorem dedupCalls_pending (key : String) (t : Nat) (n : Nat) :
    ∀ (s : DedupState), s.pending.lookup key = some t →
      dedupCalls s key n =
        { s with assignments := s.assignments ++ List.replicate n (key, t) } := by
  induction n with
  | zero =>
    intro s h
    simp [dedupCalls]
  | succ n ih =>
    intro s h
    have hcall : dedupCall s key =
        { s with assignments := s.assignments ++ [(key, t)] } := by
      simp [dedupCall, h]
    rw [dedupCalls, hcall,
      ih { s with assignments := s.assignments ++ [(key, t)] } h]
    simp [List.replicate_succ]

/-- C4: `n ≥ 1` concurrent `lookupIpInsight(ip)` callers arriving on
the never-cached key `"ip:" + ip` before the first resolution settles
produce exactly one factory invocation, and every caller is attached
to that one ticket — hence all receive its one result or failure; the
single factory run itself, with the primary configured and answering,
performs exactly one provider network call and returns the (shared)
normalized primary payload. -/
theorem dedup_thundering_herd {α ρ ι : Type} (n : Nat) (hn : 1 ≤ n)
    (w : World α ρ ι) (p : α)
    (hmiss : (w.cache.getWithStale w.ip w.now).1 = none)
    (htok : tokenPresent w.env.IPINFO_TOKEN = true)
    (hp : w.ipinfoNet = FetchOutcome.ok p) :
    (dedupCalls DedupState.empty (dedupKey w.ip) n).invocations
      = [(dedupKey w.ip, 0)] ∧
    (dedupCalls DedupState.empty (dedupKey w.ip) n).assignments
      = List.replicate n (dedupKey w.ip, 0) ∧
    (lookupFactory w).calls = [CallEvent.primary] ∧
    (lookupFactory w).result = .ok (w.normIpInfo p) := by
  obtain ⟨m, rfl⟩ : ∃ m, n = m + 1 := ⟨n - 1, (Nat.succ_pred_eq_of_pos hn).symm⟩
  have hfirst : dedupCall DedupState.empty (dedupKey w.ip) =
      ⟨[(dedupKey w.ip, 0)], 1, [(dedupKey w.ip, 0)], [(dedupKey w.ip, 0)]⟩ := by
    simp [dedupCall, DedupState.empty]
  have hrun : dedupCalls DedupState.empty (dedupKey w.ip) (m + 1) =
      { pending := [(dedupKey w.ip, 0)]
        nextTicket := 1
        invocations := [(dedupKey w.ip, 0)]
        assignments := [(dedupKey w.ip, 0)] ++ List.replicate m (dedupKey w.ip, 0) } := by
    rw [dedupCalls, hfirst, dedupCalls_pending (dedupKey w.ip) 0 m _ (by simp)]
  have hpa : primaryAttempt w = some (w.normIpInfo p) := by
    simp [primaryAttempt, fetchIpInfoWorker, htok, hp]
  have hfac : lookupFactory w =
      ⟨.ok (w.normIpInfo p), w.cache.set w.ip (w.normIpInfo p) w.now,
        primaryCallList w.env, 0⟩ := by
    simp [lookupFactory, hmiss, hpa]
  refine ⟨?_, ?_, ?_, ?_⟩
  · rw [hrun]
  · rw [hrun]
    simp [List.replicate_succ]
  · rw [hfac]
    simp [primaryCallList, htok]
  · rw [hfac]

/-- Witness for C4: three concurrent callers, one invocation, all on
ticket 0; the factory performs one primary call. -/
theorem dedup_thundering_herd_witness :
    (dedupCalls DedupState.empty (dedupKey worldHerd.ip) 3).invocations
      = [(dedupKey worldHerd.ip, 0)] ∧
    (dedupCalls DedupState.empty (dedupKey worldHerd.ip) 3).assignments
      = List.replicate 3 (dedupKey worldHerd.ip, 0) ∧
    (lookupFactory worldHerd).calls = [CallEvent.primary] ∧
    (lookupFactory worldHerd).result = .ok (worldHerd.normIpInfo 5) :=
  dedup_thundering_herd 3 (by decide) worldHerd 5 rfl (by decide) rfl

/-- C9 (divergence witness): on `GET /api/v1/ip/8.8.8.8` with no
provider credentials and an empty cache, the service throws
`ApiError(502)` but the route's catch-all responds `500 Internal
Server Error` — not the 502 the spec promises; a malformed parameter
is rejected with 400 before `lookupIpInsight` is ever invoked. -/
theorem ipRoute_500_on_total_failure_400_on_bad_ip :
    handleIpGet worldUnconfigured =
      ⟨500, .err "Internal Server Error"
        (some "Unable to fetch IP intelligence"), 1⟩ ∧
    (lookupIpInsight worldUnconfigured).result =
      .error ⟨502, "Unable to fetch IP intelligence"⟩ ∧
    handleIpGet worldBadIp = ⟨400, .err "Invalid IP address" none, 0⟩ := by
  refine ⟨?_, ?_, ?_⟩ <;> rfl

/-- Counterexample for C10: at a concrete request the `/api/health`
body has no `ipinfoConfigured` field (nor `warmingInProgress` /
`warmedCount` in `cache`), so the claimed field set is refuted. -/
theorem health_claim_counterexample :
    ¬ ((healthHandler envFull .netFail 0).hasKey "status" = true ∧
       (healthHandler envFull .netFail 0).hasKey "ipinfoConfigured" = true ∧
       (healthHandler envFull .netFail 0).hasKey "radarHealthy" = true ∧
       (healthHandler envFull .netFail 0).getKey "cache"
         = some (healthCacheBody envFull) ∧
       (healthCacheBody envFull).hasKey "backend" = true ∧
       (healthCacheBody envFull).hasKey "warmingInProgress" = true ∧
       (healthCacheBody envFull).hasKey "warmedCount" = true) := by
  intro h
  exact absurd h.2.1 (by decide)

/-- C10 (amended): the `/api/health` body contains `status`,
`radarHealthy` and a `cache` object with `backend` (and `enabled`);
it contains no `ipinfoConfigured`, and the `cache` object contains
neither `warmingInProgress` nor `warmedCount`. -/
theorem health_body_fields (env : Env) (net : VerifyOutcome) (now : Nat) :
    (healthHandler env net now).hasKey "status" = true ∧
    (healthHandler env net now).hasKey "radarHealthy" = true ∧
    (healthHandler env net now).getKey "cache" = some (healthCacheBody env) ∧
    (healthCacheBody env).hasKey "backend" = true ∧
    (healthHandler env net now).hasKey "ipinfoConfigured" = false ∧
    (healthCacheBody env).hasKey "warmingInProgress" = false ∧
    (healthCacheBody env).hasKey "warmedCount" = false := by
  refine ⟨?_, ?_, ?_, ?_, ?_, ?_, ?_⟩ <;> rfl
